import Mathlib

/-!
Shallow embedding of QEMU's iommufd container backend
(backends/iommufd.c) and proofs about its specified behaviour.

The kernel boundary (open of the controller device, ioctl requests) is
modelled by oracle outcome records passed as explicit arguments: each
outcome carries the integer status the kernel primitive returned, the
errno it left behind, and any output fields the kernel wrote into the
request record.  The request records themselves are built exactly as the
C code builds them (the fixed `.size = sizeof(...)` layout field is
omitted: it carries no information beyond the record's type).
-/

namespace Iommufd

/-- UINT32_MAX, the saturation bound of the user refcount. -/
def UINT32_MAX : Nat := 4294967295

/-- Linux E2BIG error number, returned negated by connect on saturation. -/
def E2BIG : Int := 7

/-- The backend state: the controller file descriptor (`-1` is the unset
sentinel), the user reference count and the ownership flag, as in
`struct IOMMUFDBackend`. -/
structure IOMMUFDBackend where
  fd : Int
  users : Nat
  owned : Bool
deriving Repr, DecidableEq

/-- `iommufd_backend_init`: the freshly created object — descriptor unset,
no users, self-owned. -/
def iommufd_backend_init : IOMMUFDBackend :=
  { fd := -1, users := 0, owned := true }

/-- The error reported through `errp` by `iommufd_backend_connect`. -/
inductive ConnectErr where
  | TooManyUsers : ConnectErr
  | OpenFailed : Nat → ConnectErr
deriving Repr, DecidableEq

/-- Outcome of `qemu_open_old("/dev/iommu", O_RDWR)`: the returned value
(negative on failure) and the errno left behind on failure. -/
structure OpenOutcome where
  fdRet : Int
  errno : Nat
deriving Repr, DecidableEq

/-- Result of `iommufd_backend_connect`: the updated state, the integer
return value, the error reported through `errp` (if any), and whether the
controller device was actually opened during the call. -/
structure ConnectResult where
  st : IOMMUFDBackend
  ret : Int
  err : Option ConnectErr
  openedDev : Bool
deriving Repr, DecidableEq

/-- `iommufd_backend_connect` (lines 78-103): under the lock, fail with
-E2BIG when the refcount is saturated; open the controller when self-owned
with no users, failing with the open's return value on error; otherwise
increment the refcount. -/
def iommufd_backend_connect (be : IOMMUFDBackend) (o : OpenOutcome) :
    ConnectResult :=
  if be.users = UINT32_MAX then
    { st := be, ret := -E2BIG, err := some ConnectErr.TooManyUsers,
      openedDev := false }
  else if be.owned = true ∧ be.users = 0 then
    if o.fdRet < 0 then
      { st := be, ret := o.fdRet, err := some (ConnectErr.OpenFailed o.errno),
        openedDev := false }
    else
      { st := { be with fd := o.fdRet, users := be.users + 1 }, ret := 0,
        err := none, openedDev := true }
  else
    { st := { be with users := be.users + 1 }, ret := 0, err := none,
      openedDev := false }

/-- Result of `iommufd_backend_disconnect`: the updated state and whether
the controller descriptor was closed during the call. -/
structure DisconnectResult where
  st : IOMMUFDBackend
  closedDev : Bool
deriving Repr, DecidableEq

/-- `iommufd_backend_disconnect` (lines 105-119): under the lock, no-op
when there are no users; otherwise decrement, and close and reset the
descriptor when the count reaches zero on an owned handle. -/
def iommufd_backend_disconnect (be : IOMMUFDBackend) : DisconnectResult :=
  if be.users = 0 then
    { st := be, closedDev := false }
  else
    if be.users - 1 = 0 ∧ be.owned = true then
      { st := { be with users := be.users - 1, fd := -1 }, closedDev := true }
    else
      { st := { be with users := be.users - 1 }, closedDev := false }

/-- Run `n` consecutive `connect` calls (each first-open attempt getting
outcome `o`); returns the final state and how many times the controller
device was opened. -/
def runConnects (o : OpenOutcome) : Nat → IOMMUFDBackend → IOMMUFDBackend × Nat
  | 0, be => (be, 0)
  | n + 1, be =>
    let r := iommufd_backend_connect be o
    let rest := runConnects o n r.st
    (rest.1, (if r.openedDev then 1 else 0) + rest.2)

/-- Run `n` consecutive `disconnect` calls; returns the final state and
how many times the controller descriptor was closed. -/
def runDisconnects : Nat → IOMMUFDBackend → IOMMUFDBackend × Nat
  | 0, be => (be, 0)
  | n + 1, be =>
    let r := iommufd_backend_disconnect be
    let rest := runDisconnects n r.st
    (rest.1, (if r.closedDev then 1 else 0) + rest.2)

/-- `iommufd_backend_finalize` (lines 46-54): when the handle is owned,
close the descriptor (whatever it currently is) and reset it to the unset
sentinel.  Returns the updated state and `some fd` when `close(fd)` was
invoked, `none` otherwise. -/
def iommufd_backend_finalize (be : IOMMUFDBackend) :
    IOMMUFDBackend × Option Int :=
  if be.owned = true then
    ({ be with fd := -1 }, some be.fd)
  else
    (be, none)

/-- Outcome of a plain ioctl request: the integer status it returned and
the errno it left behind on failure. -/
structure IoctlOutcome where
  ret : Int
  errno : Nat
deriving Repr, DecidableEq

/-- Kernel ABI flag: the caller specifies the IOVA. -/
def IOMMU_IOAS_MAP_FIXED_IOVA : Nat := 1

/-- Kernel ABI flag: the mapping is writable. -/
def IOMMU_IOAS_MAP_WRITEABLE : Nat := 2

/-- Kernel ABI flag: the mapping is readable. -/
def IOMMU_IOAS_MAP_READABLE : Nat := 4

/-- The `struct iommu_ioas_map` request record built by map. -/
structure iommu_ioas_map where
  flags : Nat
  ioas_id : Nat
  user_va : Int
  iova : Nat
  length : Nat
deriving Repr, DecidableEq

/-- `iommufd_backend_map_dma` (lines 189-215): build the fixed-IOVA
readable map request, adding the writable flag unless `readonly`; return
0 when the ioctl succeeds and the negated errno otherwise.  The result is
the request record sent and the function's return value. -/
def iommufd_backend_map_dma (be : IOMMUFDBackend) (ioas : Nat) (iova : Nat)
    (size : Nat) (vaddr : Int) (readonly : Bool) (k : IoctlOutcome) :
    iommu_ioas_map × Int :=
  let map0 : iommu_ioas_map :=
    { flags := Nat.lor IOMMU_IOAS_MAP_READABLE IOMMU_IOAS_MAP_FIXED_IOVA,
      ioas_id := ioas, user_va := vaddr, iova := iova, length := size }
  let map1 :=
    if readonly = false then
      { map0 with flags := Nat.lor map0.flags IOMMU_IOAS_MAP_WRITEABLE }
    else map0
  (map1, if k.ret = 0 then 0 else -(k.errno : Int))

/-- The `struct iommu_ioas_unmap` request record built by unmap. -/
structure iommu_ioas_unmap where
  ioas_id : Nat
  iova : Nat
  length : Nat
deriving Repr, DecidableEq

/-- `iommufd_backend_unmap_dma` (lines 170-187): build the unmap request;
return 0 when the ioctl succeeds and the negated errno otherwise. -/
def iommufd_backend_unmap_dma (be : IOMMUFDBackend) (ioas : Nat)
    (iova : Nat) (size : Nat) (k : IoctlOutcome) : iommu_ioas_unmap × Int :=
  let unmap : iommu_ioas_unmap := { ioas_id := ioas, iova := iova, length := size }
  (unmap, if k.ret = 0 then 0 else -(k.errno : Int))

/-- The `struct iommu_ioas_copy` request record built by copy. -/
structure iommu_ioas_copy where
  flags : Nat
  dst_ioas_id : Nat
  src_ioas_id : Nat
  length : Nat
  dst_iova : Nat
  src_iova : Nat
deriving Repr, DecidableEq

/-- `iommufd_backend_copy_dma` (lines 217-244): build the fixed-IOVA
readable copy request (source and destination IOVA both the caller's
`iova`), adding the writable flag unless `readonly`; return 0 when the
ioctl succeeds and the negated errno otherwise. -/
def iommufd_backend_copy_dma (be : IOMMUFDBackend) (src_ioas : Nat)
    (dst_ioas : Nat) (iova : Nat) (size : Nat) (readonly : Bool)
    (k : IoctlOutcome) : iommu_ioas_copy × Int :=
  let copy0 : iommu_ioas_copy :=
    { flags := Nat.lor IOMMU_IOAS_MAP_READABLE IOMMU_IOAS_MAP_FIXED_IOVA,
      dst_ioas_id := dst_ioas, src_ioas_id := src_ioas, length := size,
      dst_iova := iova, src_iova := iova }
  let copy1 :=
    if readonly = false then
      { copy0 with flags := Nat.lor copy0.flags IOMMU_IOAS_MAP_WRITEABLE }
    else copy0
  (copy1, if k.ret = 0 then 0 else -(k.errno : Int))

/-- The `struct iommu_ioas_alloc` request record built by alloc_ioas
(only the flags field carries caller-chosen content). -/
structure iommu_ioas_alloc where
  flags : Nat
deriving Repr, DecidableEq

/-- Outcome of the IOMMU_IOAS_ALLOC ioctl: the integer status and the
content of the record's `out_ioas_id` field after the call (the id the
controller produced when the status is 0; residual otherwise). -/
structure AllocIoasOutcome where
  ret : Int
  out_ioas_id : Nat
deriving Repr, DecidableEq

/-- `iommufd_backend_alloc_ioas` (lines 121-138): issue a no-flags
allocation request; unconditionally store the record's `out_ioas_id`
field through the output pointer and return the raw ioctl status.
Result: the request sent, the return value, the value stored in `*ioas`. -/
def iommufd_backend_alloc_ioas (fd : Int) (k : AllocIoasOutcome) :
    iommu_ioas_alloc × Int × Nat :=
  let alloc_data : iommu_ioas_alloc := { flags := 0 }
  (alloc_data, k.ret, k.out_ioas_id)

/-- `iommufd_backend_get_ioas` (lines 155-162): delegate to alloc_ioas on
the handle's descriptor. -/
def iommufd_backend_get_ioas (be : IOMMUFDBackend) (k : AllocIoasOutcome) :
    iommu_ioas_alloc × Int × Nat :=
  iommufd_backend_alloc_ioas be.fd k

/-- The `struct iommu_destroy` request record built by free_id. -/
structure iommu_destroy where
  id : Nat
deriving Repr, DecidableEq

/-- Observable effect of `iommufd_backend_free_id`: the destroy request it
sent and whether a failure diagnostic was logged.  The C function returns
`void`: no component of this record is a return-level error value. -/
structure FreeIdEffect where
  req : iommu_destroy
  logged : Bool
deriving Repr, DecidableEq

/-- `iommufd_backend_free_id` (lines 140-153): issue a generic destroy
request for `id`; on failure only log a diagnostic — nothing is returned
to the caller. -/
def iommufd_backend_free_id (fd : Int) (id : Nat) (k : IoctlOutcome) :
    FreeIdEffect :=
  { req := { id := id }, logged := k.ret != 0 }

/-- `iommufd_backend_put_ioas` (lines 164-168): free an address-space id
via free_id; also returns nothing. -/
def iommufd_backend_put_ioas (be : IOMMUFDBackend) (ioas : Nat)
    (k : IoctlOutcome) : FreeIdEffect :=
  iommufd_backend_free_id be.fd ioas k

/-- The `struct iommu_alloc_hwpt` request record built by alloc_hwpt. -/
structure iommu_alloc_hwpt where
  flags : Nat
  dev_id : Nat
  hwpt_type : Nat
  parent_id : Nat
  data_type : Nat
  data_len : Nat
  data_uptr : Int
deriving Repr, DecidableEq

/-- Outcome of the IOMMU_ALLOC_HWPT ioctl: status, errno, and the
`out_hwpt_id` the controller wrote on success. -/
structure HwptOutcome where
  ret : Int
  errno : Nat
  out_hwpt_id : Nat
deriving Repr, DecidableEq

/-- `iommufd_backend_alloc_hwpt` (lines 246-274): build the hwpt
allocation request; write `*out_hwpt` only on success (`out_hwpt` is the
caller variable's prior content); return 0 or the negated errno.
Result: request, return value, final content of the caller's variable. -/
def iommufd_backend_alloc_hwpt (iommufd : Int) (flags : Nat) (dev_id : Nat)
    (hwpt_type : Nat) (parent : Nat) (data_type : Nat) (data : Int)
    (data_len : Nat) (out_hwpt : Nat) (k : HwptOutcome) :
    iommu_alloc_hwpt × Int × Nat :=
  let alloc_hwpt : iommu_alloc_hwpt :=
    { flags := flags, dev_id := dev_id, hwpt_type := hwpt_type,
      parent_id := parent, data_type := data_type, data_len := data_len,
      data_uptr := data }
  (alloc_hwpt, (if k.ret = 0 then 0 else -(k.errno : Int)),
   if k.ret = 0 then k.out_hwpt_id else out_hwpt)

/-- Kernel ABI event type tag for page-fault delivery. -/
def IOMMU_HWPT_EVENT_FAULT : Nat := 0

/-- The `struct iommu_add_hwpt_event` request record. -/
structure iommu_add_hwpt_event where
  flags : Nat
  type : Nat
  dev_id : Nat
  hwpt_id : Nat
  eventfd : Int
deriving Repr, DecidableEq

/-- Outcome of the IOMMU_ADD_HWPT_EVENT ioctl: status, errno, and the
`out_fd` the controller wrote on success. -/
structure EventOutcome where
  ret : Int
  errno : Nat
  out_fd : Int
deriving Repr, DecidableEq

/-- `iommufd_backend_add_hwpt_event` (lines 276-298): build the fault
event registration request; write `*out_fd` only on success (`out_fd` is
the caller variable's prior content); return 0 or the negated errno. -/
def iommufd_backend_add_hwpt_event (iommufd : Int) (dev_id : Nat)
    (hwpt : Nat) (eventfd : Int) (out_fd : Int) (k : EventOutcome) :
    iommu_add_hwpt_event × Int × Int :=
  let add_event : iommu_add_hwpt_event :=
    { flags := 0, type := IOMMU_HWPT_EVENT_FAULT, dev_id := dev_id,
      hwpt_id := hwpt, eventfd := eventfd }
  (add_event, (if k.ret = 0 then 0 else -(k.errno : Int)),
   if k.ret = 0 then k.out_fd else out_fd)

/-- Kernel ABI flag: the allocated PASID must equal the range minimum. -/
def IOMMU_ALLOC_PASID_IDENTICAL : Nat := 1

/-- The `range` sub-record of the PASID allocation request. -/
structure iommu_alloc_pasid_range where
  min : Nat
  max : Nat
deriving Repr, DecidableEq

/-- The `struct iommu_alloc_pasid` request record. -/
structure iommu_alloc_pasid where
  flags : Nat
  range : iommu_alloc_pasid_range
  pasid : Nat
deriving Repr, DecidableEq

/-- Outcome of the IOMMU_ALLOC_PASID ioctl: status, errno, and the
content of the record's `pasid` field after the call (the controller's
chosen PASID when the status is 0). -/
structure PasidOutcome where
  ret : Int
  errno : Nat
  pasid : Nat
deriving Repr, DecidableEq

/-- `iommufd_backend_alloc_pasid` (lines 300-322): build the request with
the caller's advisory `*pasid` pre-filled and the identical flag as
requested; overwrite `*pasid` with the controller's choice only on
success; return 0 or the negated errno.  Result: request, return value,
final content of the caller's pasid variable. -/
def iommufd_backend_alloc_pasid (iommufd : Int) (mi : Nat) (ma : Nat)
    (identical : Bool) (pasid : Nat) (k : PasidOutcome) :
    iommu_alloc_pasid × Int × Nat :=
  let upasid := pasid
  let alloc : iommu_alloc_pasid :=
    { flags := if identical = true then IOMMU_ALLOC_PASID_IDENTICAL else 0,
      range := { min := mi, max := ma }, pasid := upasid }
  (alloc, (if k.ret = 0 then 0 else -(k.errno : Int)),
   if k.ret = 0 then k.pasid else pasid)

/-- The kernel ABI contract for PASID allocation: on success the
controller's chosen PASID lies in the requested range, and equals the
range minimum when the identical flag was set. -/
def PasidKernelContract (req : iommu_alloc_pasid) (k : PasidOutcome) : Prop :=
  k.ret = 0 →
    req.range.min ≤ k.pasid ∧ k.pasid ≤ req.range.max ∧
    (Nat.testBit req.flags 0 = true → k.pasid = req.range.min)

/-! Helper lemmas about connect/disconnect traces. -/

theorem connect_steady (o : OpenOutcome) (k : Nat) (f : Int)
    (hk : 1 ≤ k) (hne : k ≠ UINT32_MAX) :
    iommufd_backend_connect ⟨f, k, true⟩ o =
      { st := ⟨f, k + 1, true⟩, ret := 0, err := none, openedDev := false } := by
  have hk0 : ¬(k = 0) := by omega
  simp [iommufd_backend_connect, hne, hk0]

theorem runConnects_steady (o : OpenOutcome) :
    ∀ (n k : Nat) (f : Int), 1 ≤ k → k + n ≤ UINT32_MAX →
      runConnects o n ⟨f, k, true⟩ = (⟨f, k + n, true⟩, 0) := by
  intro n
  induction n with
  | zero => intro k f hk hmax; simp [runConnects]
  | succ n ih =>
    intro k f hk hmax
    have hne : k ≠ UINT32_MAX := by omega
    have hconn := connect_steady o k f hk hne
    have ihx := ih (k + 1) f (by omega) (by omega)
    have harith : k + 1 + n = k + (n + 1) := by omega
    rw [harith] at ihx
    simp [runConnects, hconn, ihx]

theorem connect_first (o : OpenOutcome) (ho : 0 ≤ o.fdRet) :
    iommufd_backend_connect iommufd_backend_init o =
      { st := ⟨o.fdRet, 1, true⟩, ret := 0, err := none, openedDev := true } := by
  have h0 : ¬((0 : Nat) = UINT32_MAX) := by decide
  have hfd : ¬(o.fdRet < 0) := by omega
  simp [iommufd_backend_connect, iommufd_backend_init, h0, hfd]

theorem runConnects_from_init (o : OpenOutcome) (N : Nat)
    (hN : 1 ≤ N) (hmax : N ≤ UINT32_MAX) (ho : 0 ≤ o.fdRet) :
    runConnects o N iommufd_backend_init = (⟨o.fdRet, N, true⟩, 1) := by
  obtain ⟨m, rfl⟩ : ∃ m, N = m + 1 := ⟨N - 1, by omega⟩
  have hconn := connect_first o ho
  have hsteady := runConnects_steady o m 1 o.fdRet (by omega) (by omega)
  have harith : 1 + m = m + 1 := by omega
  rw [harith] at hsteady
  simp [runConnects, hconn, hsteady]

theorem runDisconnects_below (f : Int) :
    ∀ (j n : Nat), j < n →
      runDisconnects j ⟨f, n, true⟩ = (⟨f, n - j, true⟩, 0) := by
  intro j
  induction j with
  | zero => intro n h; simp [runDisconnects]
  | succ j ih =>
    intro n h
    have hn0 : ¬(n = 0) := by omega
    have hn1 : ¬(n - 1 = 0) := by omega
    have ihx := ih (n - 1) (by omega)
    have harith : n - 1 - j = n - (j + 1) := by omega
    rw [harith] at ihx
    simp [runDisconnects, iommufd_backend_disconnect, hn0, hn1, ihx]

theorem runDisconnects_full (f : Int) :
    ∀ (n : Nat), 1 ≤ n →
      runDisconnects n ⟨f, n, true⟩ = (⟨-1, 0, true⟩, 1) := by
  intro n
  induction n with
  | zero => intro h; omega
  | succ n ih =>
    intro _
    by_cases hn : n = 0
    · subst hn
      simp [runDisconnects, iommufd_backend_disconnect]
    · have h1 : ¬(n + 1 = 0) := by omega
      have h2 : ¬(n + 1 - 1 = 0) := by omega
      have ihx := ih (by omega)
      simp [runDisconnects, iommufd_backend_disconnect, h1, h2, hn, ihx]

theorem runDisconnects_not_owned :
    ∀ (n : Nat) (be : IOMMUFDBackend), be.owned = false →
      (runDisconnects n be).2 = 0 ∧
      (runDisconnects n be).1.fd = be.fd ∧
      (runDisconnects n be).1.owned = false := by
  intro n
  induction n with
  | zero => intro be h; simp [runDisconnects, h]
  | succ n ih =>
    intro be h
    by_cases h0 : be.users = 0
    · have hst : iommufd_backend_disconnect be = { st := be, closedDev := false } := by
        simp [iommufd_backend_disconnect, h0]
      simpa [runDisconnects, hst] using ih be h
    · have hcond : ¬(be.users - 1 = 0 ∧ be.owned = true) := by
        simp [h]
      have hst : iommufd_backend_disconnect be =
          { st := { be with users := be.users - 1 }, closedDev := false } := by
        simp [iommufd_backend_disconnect, h0, hcond]
      simpa [runDisconnects, hst] using ih { be with users := be.users - 1 } h

/-- C1: starting from the initial unconnected self-owned state, a sequence
of N connect calls (with the device open succeeding) followed by N
disconnect calls opens the controller device exactly once and closes it
exactly once, the descriptor is valid (not the unset sentinel) at every
intermediate state in which reference_count > 0, and the final state is
again the initial one. -/
theorem C1_connect_disconnect_protocol (N : Nat) (o : OpenOutcome)
    (hN : 1 ≤ N) (hmax : N ≤ UINT32_MAX) (ho : 0 ≤ o.fdRet) :
    (runConnects o N iommufd_backend_init).2 = 1 ∧
    (runDisconnects N (runConnects o N iommufd_backend_init).1).2 = 1 ∧
    (∀ k, k ≤ N →
      0 < (runConnects o k iommufd_backend_init).1.users →
      0 ≤ (runConnects o k iommufd_backend_init).1.fd) ∧
    (∀ j, j ≤ N →
      0 < (runDisconnects j (runConnects o N iommufd_backend_init).1).1.users →
      0 ≤ (runDisconnects j (runConnects o N iommufd_backend_init).1).1.fd) ∧
    (runDisconnects N (runConnects o N iommufd_backend_init).1).1 =
      iommufd_backend_init := by
  have hrc := runConnects_from_init o N hN hmax ho
  refine ⟨?_, ?_, ?_, ?_, ?_⟩
  · rw [hrc]
  · rw [hrc, runDisconnects_full o.fdRet N hN]
  · intro k hk
    by_cases hk1 : k = 0
    · subst hk1
      simp [runConnects, iommufd_backend_init]
    · rw [runConnects_from_init o k (by omega) (by omega) ho]
      intro _
      exact ho
  · intro j hj
    rw [hrc]
    by_cases hjN : j = N
    · subst hjN
      rw [runDisconnects_full o.fdRet j hN]
      simp
    · rw [runDisconnects_below o.fdRet j N (by omega)]
      intro _
      exact ho
  · rw [hrc, runDisconnects_full o.fdRet N hN]
    rfl

/-- Witness for C1 at N = 2 with a successful open returning descriptor 3:
the device is opened once and closed once. -/
theorem C1_witness :
    (runConnects ⟨3, 0⟩ 2 iommufd_backend_init).2 = 1 ∧
    (runDisconnects 2 (runConnects ⟨3, 0⟩ 2 iommufd_backend_init).1).2 = 1 :=
  ⟨(C1_connect_disconnect_protocol 2 ⟨3, 0⟩ (by decide) (by decide) (by decide)).1,
   (C1_connect_disconnect_protocol 2 ⟨3, 0⟩ (by decide) (by decide) (by decide)).2.1⟩

/-- C2: connect fails without any state mutation in both error cases — at
a saturated refcount it reports TooManyUsers returning -E2BIG, and on a
failed device open of a self-owned zero-user handle it reports the
errno-qualified OpenFailed returning the open's value; in both cases the
state (descriptor and reference count) is unchanged. -/
theorem C2_connect_error_no_mutation (be : IOMMUFDBackend) (o : OpenOutcome) :
    (be.users = UINT32_MAX →
      iommufd_backend_connect be o =
        { st := be, ret := -E2BIG, err := some ConnectErr.TooManyUsers,
          openedDev := false }) ∧
    (be.owned = true → be.users = 0 → o.fdRet < 0 →
      iommufd_backend_connect be o =
        { st := be, ret := o.fdRet,
          err := some (ConnectErr.OpenFailed o.errno), openedDev := false }) := by
  constructor
  · intro h
    simp [iommufd_backend_connect, h]
  · intro how hu hfd
    have h0 : ¬((0 : Nat) = UINT32_MAX) := by decide
    simp [iommufd_backend_connect, h0, how, hu, hfd]

/-- Witness for C2: a saturated handle and a failed first open, both at
concrete states. -/
theorem C2_witness :
    iommufd_backend_connect ⟨7, UINT32_MAX, true⟩ ⟨3, 0⟩ =
      { st := ⟨7, UINT32_MAX, true⟩, ret := -E2BIG,
        err := some ConnectErr.TooManyUsers, openedDev := false } ∧
    iommufd_backend_connect iommufd_backend_init ⟨-1, 13⟩ =
      { st := iommufd_backend_init, ret := -1,
        err := some (ConnectErr.OpenFailed 13), openedDev := false } :=
  ⟨(C2_connect_error_no_mutation ⟨7, UINT32_MAX, true⟩ ⟨3, 0⟩).1 rfl,
   (C2_connect_error_no_mutation iommufd_backend_init ⟨-1, 13⟩).2 rfl rfl
     (by decide)⟩

/-- C3: disconnect with zero users is a no-op (the count never
underflows); otherwise it decrements the count, closing the descriptor
and resetting it to the unset sentinel exactly when the count reaches
zero on a self-owned handle; and a non-self-owned handle's descriptor is
never closed by disconnect, no matter how many disconnects run. -/
theorem C3_disconnect_spec (be : IOMMUFDBackend) :
    (be.users = 0 →
      iommufd_backend_disconnect be = { st := be, closedDev := false }) ∧
    (0 < be.users →
      (iommufd_backend_disconnect be).st.users = be.users - 1 ∧
      ((iommufd_backend_disconnect be).closedDev = true ↔
        (be.users - 1 = 0 ∧ be.owned = true)) ∧
      (be.users - 1 = 0 ∧ be.owned = true →
        (iommufd_backend_disconnect be).st.fd = -1) ∧
      (¬(be.users - 1 = 0 ∧ be.owned = true) →
        (iommufd_backend_disconnect be).st.fd = be.fd)) ∧
    (be.owned = false → ∀ n,
      (runDisconnects n be).2 = 0 ∧ (runDisconnects n be).1.fd = be.fd) := by
  refine ⟨?_, ?_, ?_⟩
  · intro h
    simp [iommufd_backend_disconnect, h]
  · intro h
    have h0 : ¬(be.users = 0) := by omega
    by_cases hc : be.users - 1 = 0 ∧ be.owned = true <;>
      simp [iommufd_backend_disconnect, h0, hc]
  · intro h n
    exact ⟨(runDisconnects_not_owned n be h).1,
           (runDisconnects_not_owned n be h).2.1⟩

/-- Witness for C3: a zero-user no-op, a closing decrement from one user,
and three disconnects of a borrowed handle closing nothing. -/
theorem C3_witness :
    iommufd_backend_disconnect ⟨5, 0, true⟩ =
      { st := ⟨5, 0, true⟩, closedDev := false } ∧
    (iommufd_backend_disconnect ⟨5, 1, true⟩).st.users = 0 ∧
    (runDisconnects 3 ⟨5, 4, false⟩).2 = 0 :=
  ⟨(C3_disconnect_spec ⟨5, 0, true⟩).1 rfl,
   ((C3_disconnect_spec ⟨5, 1, true⟩).2.1 (by decide)).1,
   ((C3_disconnect_spec ⟨5, 4, false⟩).2.2 rfl 3).1⟩

/-- C4: the map and copy request records always carry the readable flag
(bit 2) and the fixed-IOVA flag (bit 0), carry the caller's IOVA exactly
as given, and carry the writable flag (bit 1) exactly when the readonly
argument is false. -/
theorem C4_map_copy_request_flags (be : IOMMUFDBackend)
    (ioas src dst iova size : Nat) (vaddr : Int) (readonly : Bool)
    (k : IoctlOutcome) :
    (Nat.testBit (iommufd_backend_map_dma be ioas iova size vaddr readonly k).1.flags 2 = true ∧
     Nat.testBit (iommufd_backend_map_dma be ioas iova size vaddr readonly k).1.flags 0 = true ∧
     (iommufd_backend_map_dma be ioas iova size vaddr readonly k).1.iova = iova ∧
     (Nat.testBit (iommufd_backend_map_dma be ioas iova size vaddr readonly k).1.flags 1 = true ↔
       readonly = false)) ∧
    (Nat.testBit (iommufd_backend_copy_dma be src dst iova size readonly k).1.flags 2 = true ∧
     Nat.testBit (iommufd_backend_copy_dma be src dst iova size readonly k).1.flags 0 = true ∧
     (iommufd_backend_copy_dma be src dst iova size readonly k).1.dst_iova = iova ∧
     (iommufd_backend_copy_dma be src dst iova size readonly k).1.src_iova = iova ∧
     (Nat.testBit (iommufd_backend_copy_dma be src dst iova size readonly k).1.flags 1 = true ↔
       readonly = false)) := by
  have hm : (iommufd_backend_map_dma be ioas iova size vaddr readonly k).1 =
      { flags := if readonly = false then 7 else 5, ioas_id := ioas,
        user_va := vaddr, iova := iova, length := size } := by
    cases readonly <;>
      simp [iommufd_backend_map_dma, IOMMU_IOAS_MAP_READABLE,
            IOMMU_IOAS_MAP_FIXED_IOVA, IOMMU_IOAS_MAP_WRITEABLE] <;>
      decide
  have hc : (iommufd_backend_copy_dma be src dst iova size readonly k).1 =
      { flags := if readonly = false then 7 else 5, dst_ioas_id := dst,
        src_ioas_id := src, length := size, dst_iova := iova,
        src_iova := iova } := by
    cases readonly <;>
      simp [iommufd_backend_copy_dma, IOMMU_IOAS_MAP_READABLE,
            IOMMU_IOAS_MAP_FIXED_IOVA, IOMMU_IOAS_MAP_WRITEABLE] <;>
      decide
  have h72 : Nat.testBit 7 2 = true := by decide
  have h70 : Nat.testBit 7 0 = true := by decide
  have h71 : Nat.testBit 7 1 = true := by decide
  have h52 : Nat.testBit 5 2 = true := by decide
  have h50 : Nat.testBit 5 0 = true := by decide
  have h51 : Nat.testBit 5 1 = false := by decide
  cases readonly <;>
    simp [hm, hc, h72, h70, h71, h52, h50, h51]

/-- C5: map, unmap and copy return 0 exactly when the kernel request
succeeded, return the negated specific errno on failure, and two failures
with different errnos produce different return values. -/
theorem C5_dma_return_contract (be : IOMMUFDBackend)
    (ioas src dst iova size : Nat) (vaddr : Int) (readonly : Bool)
    (k : IoctlOutcome) :
    (k.ret = 0 →
      (iommufd_backend_map_dma be ioas iova size vaddr readonly k).2 = 0 ∧
      (iommufd_backend_unmap_dma be ioas iova size k).2 = 0 ∧
      (iommufd_backend_copy_dma be src dst iova size readonly k).2 = 0) ∧
    (k.ret ≠ 0 →
      (iommufd_backend_map_dma be ioas iova size vaddr readonly k).2 =
        -(k.errno : Int) ∧
      (iommufd_backend_unmap_dma be ioas iova size k).2 = -(k.errno : Int) ∧
      (iommufd_backend_copy_dma be src dst iova size readonly k).2 =
        -(k.errno : Int)) ∧
    (∀ k1 k2 : IoctlOutcome, k1.ret ≠ 0 → k2.ret ≠ 0 → k1.errno ≠ k2.errno →
      (iommufd_backend_map_dma be ioas iova size vaddr readonly k1).2 ≠
        (iommufd_backend_map_dma be ioas iova size vaddr readonly k2).2 ∧
      (iommufd_backend_unmap_dma be ioas iova size k1).2 ≠
        (iommufd_backend_unmap_dma be ioas iova size k2).2 ∧
      (iommufd_backend_copy_dma be src dst iova size readonly k1).2 ≠
        (iommufd_backend_copy_dma be src dst iova size readonly k2).2) := by
  refine ⟨?_, ?_, ?_⟩
  · intro h
    simp [iommufd_backend_map_dma, iommufd_backend_unmap_dma,
          iommufd_backend_copy_dma, h]
  · intro h
    simp [iommufd_backend_map_dma, iommufd_backend_unmap_dma,
          iommufd_backend_copy_dma, h]
  · intro k1 k2 h1 h2 he
    refine ⟨?_, ?_, ?_⟩ <;>
      simpa [iommufd_backend_map_dma, iommufd_backend_unmap_dma,
             iommufd_backend_copy_dma, h1, h2] using he

/-- Witness for C5: a successful map returns 0; an unmap failing with
errno 22 returns -22, and a failure with errno 14 returns a different
value. -/
theorem C5_witness :
    (iommufd_backend_map_dma iommufd_backend_init 1 4096 4096 100 false
      ⟨0, 0⟩).2 = 0 ∧
    (iommufd_backend_unmap_dma iommufd_backend_init 1 4096 4096
      ⟨-1, 22⟩).2 = -22 ∧
    (iommufd_backend_unmap_dma iommufd_backend_init 1 4096 4096 ⟨-1, 22⟩).2 ≠
      (iommufd_backend_unmap_dma iommufd_backend_init 1 4096 4096 ⟨-1, 14⟩).2 :=
  ⟨((C5_dma_return_contract iommufd_backend_init 1 2 3 4096 4096 100 false
      ⟨0, 0⟩).1 rfl).1,
   ((C5_dma_return_contract iommufd_backend_init 1 2 3 4096 4096 100 false
      ⟨-1, 22⟩).2.1 (by decide)).2.1,
   ((C5_dma_return_contract iommufd_backend_init 1 2 3 4096 4096 100 false
      ⟨-1, 22⟩).2.2 ⟨-1, 22⟩ ⟨-1, 14⟩ (by decide) (by decide) (by decide)).2.1⟩

/-- C6: alloc_ioas issues a fixed-shape request with no flags, passes the
raw kernel status to its caller (so failure is distinguishable from
success), and on success the id stored through the output parameter is
exactly the one the controller produced; get_ioas is the same operation on
the handle's descriptor. -/
theorem C6_alloc_ioas_contract (fd : Int) (be : IOMMUFDBackend)
    (k : AllocIoasOutcome) :
    (iommufd_backend_alloc_ioas fd k).1.flags = 0 ∧
    (iommufd_backend_alloc_ioas fd k).2.1 = k.ret ∧
    (k.ret = 0 → (iommufd_backend_alloc_ioas fd k).2.2 = k.out_ioas_id) ∧
    iommufd_backend_get_ioas be k = iommufd_backend_alloc_ioas be.fd k :=
  ⟨rfl, rfl, fun _ => rfl, rfl⟩

/-- Witness for C6: a successful allocation at descriptor 3 stores the
controller-produced id 42. -/
theorem C6_witness : (iommufd_backend_alloc_ioas 3 ⟨0, 42⟩).2.2 = 42 :=
  (C6_alloc_ioas_contract 3 iommufd_backend_init ⟨0, 42⟩).2.2.1 rfl

/-- C7: free_id (and put_ioas, its address-space wrapper) returns nothing
the caller could branch on: apart from the diagnostic log flag its
observable effect (the destroy request sent) is identical for every
kernel outcome, and a failed destroy is reported only through the
diagnostic flag. -/
theorem C7_free_id_best_effort (fd : Int) (id : Nat) (be : IOMMUFDBackend)
    (ioas : Nat) (k k1 k2 : IoctlOutcome) :
    (iommufd_backend_free_id fd id k1).req =
      (iommufd_backend_free_id fd id k2).req ∧
    ((iommufd_backend_free_id fd id k).logged = true ↔ k.ret ≠ 0) ∧
    iommufd_backend_put_ioas be ioas k = iommufd_backend_free_id be.fd ioas k := by
  refine ⟨rfl, ?_, rfl⟩
  simp [iommufd_backend_free_id]

/-- C8: the PASID allocation request carries exactly the range [min,max],
the identical flag (bit 0) iff the identical argument is true, and the
caller's advisory pasid pre-filled; on success the caller's variable
receives the controller's chosen value; and under the kernel ABI contract
a request with min = max = 5 can only leave pasid 5 in the caller's
variable on success. -/
theorem C8_alloc_pasid_contract (iommufd : Int) (mi ma : Nat)
    (identical : Bool) (pasid : Nat) (k : PasidOutcome) :
    (iommufd_backend_alloc_pasid iommufd mi ma identical pasid k).1.range.min = mi ∧
    (iommufd_backend_alloc_pasid iommufd mi ma identical pasid k).1.range.max = ma ∧
    (Nat.testBit (iommufd_backend_alloc_pasid iommufd mi ma identical pasid k).1.flags 0 = true ↔
      identical = true) ∧
    (iommufd_backend_alloc_pasid iommufd mi ma identical pasid k).1.pasid = pasid ∧
    (k.ret = 0 →
      (iommufd_backend_alloc_pasid iommufd mi ma identical pasid k).2.2 = k.pasid) ∧
    (PasidKernelContract (iommufd_backend_alloc_pasid iommufd mi ma identical pasid k).1 k →
      mi = 5 → ma = 5 → k.ret = 0 →
      (iommufd_backend_alloc_pasid iommufd mi ma identical pasid k).2.2 = 5) := by
  have hreq : (iommufd_backend_alloc_pasid iommufd mi ma identical pasid k).1 =
      { flags := if identical = true then 1 else 0,
        range := { min := mi, max := ma }, pasid := pasid } := by
    cases identical <;> rfl
  have ht1 : Nat.testBit 1 0 = true := by decide
  have ht0 : Nat.testBit 0 0 = false := by decide
  refine ⟨?_, ?_, ?_, ?_, ?_, ?_⟩
  · rw [hreq]
  · rw [hreq]
  · rw [hreq]
    cases identical <;> simp [ht1, ht0]
  · rw [hreq]
  · intro h
    simp [iommufd_backend_alloc_pasid, h]
  · intro hcon h5 h5' hret
    obtain ⟨hlo, hhi, _⟩ := hcon hret
    rw [hreq] at hlo hhi
    simp at hlo hhi
    subst h5
    subst h5'
    simp [iommufd_backend_alloc_pasid, hret]
    omega

/-- Witness for C8: min = max = 5, identical, with an ABI-conforming
controller outcome choosing 5 — the caller's variable ends up 5. -/
theorem C8_witness :
    (iommufd_backend_alloc_pasid 3 5 5 true 0 ⟨0, 0, 5⟩).2.2 = 5 :=
  (C8_alloc_pasid_contract 3 5 5 true 0 ⟨0, 0, 5⟩).2.2.2.2.2
    (by unfold PasidKernelContract; decide) rfl rfl rfl

/-- C9 counterexample: destruction of the freshly initialised handle —
self-owned with the descriptor still the unset sentinel -1 — does invoke
close (on the sentinel): the code checks only ownership, not descriptor
validity, refuting the claim that a close happens only when the
descriptor is not the unset sentinel. -/
theorem C9_counterexample :
    iommufd_backend_init.owned = true ∧
    iommufd_backend_init.fd = -1 ∧
    (iommufd_backend_finalize iommufd_backend_init).2 = some (-1) :=
  ⟨rfl, rfl, rfl⟩

/-- C9 amended: destruction closes the descriptor exactly when the handle
is self-owned — even when the descriptor is the unset sentinel, in which
case the close targets the sentinel value — and destruction of a
non-self-owned handle never closes the descriptor and leaves the state
unchanged. -/
theorem C9_finalize_amended (be : IOMMUFDBackend) :
    ((iommufd_backend_finalize be).2 = some be.fd ↔ be.owned = true) ∧
    (be.owned = true → (iommufd_backend_finalize be).1.fd = -1) ∧
    (be.owned = false → iommufd_backend_finalize be = (be, none)) := by
  cases hbe : be.owned <;> simp [iommufd_backend_finalize, hbe]

/-- Witness for C9: destroying a borrowed handle closes nothing and
changes nothing. -/
theorem C9_witness :
    iommufd_backend_finalize ⟨4, 0, false⟩ = (⟨4, 0, false⟩, none) :=
  (C9_finalize_amended ⟨4, 0, false⟩).2.2 rfl

/-- C10: alloc_hwpt, add_hwpt_event and alloc_pasid leave the caller's
output variable unchanged (holding its prior value) whenever the kernel
request fails. -/
theorem C10_outputs_only_on_success (iommufd : Int)
    (flags dev_id hwpt_type parent data_type data_len out_hwpt : Nat)
    (data : Int) (hwpt : Nat) (eventfd out_fd : Int)
    (mi ma : Nat) (identical : Bool) (pasid : Nat)
    (kh : HwptOutcome) (ke : EventOutcome) (kp : PasidOutcome) :
    (kh.ret ≠ 0 →
      (iommufd_backend_alloc_hwpt iommufd flags dev_id hwpt_type parent
        data_type data data_len out_hwpt kh).2.2 = out_hwpt) ∧
    (ke.ret ≠ 0 →
      (iommufd_backend_add_hwpt_event iommufd dev_id hwpt eventfd out_fd
        ke).2.2 = out_fd) ∧
    (kp.ret ≠ 0 →
      (iommufd_backend_alloc_pasid iommufd mi ma identical pasid kp).2.2 =
        pasid) := by
  refine ⟨?_, ?_, ?_⟩ <;> intro h <;>
    simp [iommufd_backend_alloc_hwpt, iommufd_backend_add_hwpt_event,
          iommufd_backend_alloc_pasid, h]

/-- Witness for C10: failing outcomes (status -1, errno 22) leave the
prior values 77, 88 and 99 in the callers' variables. -/
theorem C10_witness :
    (iommufd_backend_alloc_hwpt 3 0 1 2 0 0 0 0 77 ⟨-1, 22, 9⟩).2.2 = 77 ∧
    (iommufd_backend_add_hwpt_event 3 1 2 5 88 ⟨-1, 22, 9⟩).2.2 = 88 ∧
    (iommufd_backend_alloc_pasid 3 1 4 false 99 ⟨-1, 22, 9⟩).2.2 = 99 :=
  ⟨(C10_outputs_only_on_success 3 0 1 2 0 0 0 77 0 2 5 88 1 4 false 99
      ⟨-1, 22, 9⟩ ⟨-1, 22, 9⟩ ⟨-1, 22, 9⟩).1 (by decide),
   (C10_outputs_only_on_success 3 0 1 2 0 0 0 77 0 2 5 88 1 4 false 99
      ⟨-1, 22, 9⟩ ⟨-1, 22, 9⟩ ⟨-1, 22, 9⟩).2.1 (by decide),
   (C10_outputs_only_on_success 3 0 1 2 0 0 0 77 0 2 5 88 1 4 false 99
      ⟨-1, 22, 9⟩ ⟨-1, 22, 9⟩ ⟨-1, 22, 9⟩).2.2 (by decide)⟩

end Iommufd
